import Mathlib

/-!
Verification of the `auto_updata` self-update engine against its design
specification.

The repository contains two variants of the updater:
* `src/updata.py` — modelled below in namespace `Updata`;
* `src/auto_updata/auto_updata.py` — modelled in namespace `AutoUpdata`.

Bytes are modelled as `Nat`, file contents as `List Nat`, and the SHA-256
digest as an abstract parameter `h : List Nat → String` (the incremental
`hashlib` object is equivalent to hashing the concatenation of all bytes fed
to it, which is how `h` is applied).  The zip container library is modelled
by a parameter `zipNames : List Nat → Option (List String)`: `none` means
`zipfile.is_zipfile` is false for those bytes, `some names` is the entry
list returned by `ZipFile.namelist()`.  Network responses are modelled by a
record carrying the `raise_for_status` outcome, the declared
`content-length` header and the list of body chunks yielded by
`iter_bytes(chunk_size=8192)`.

String primitives (`split`, `startswith`, lower/upper casing, numeric
parsing, lexicographic comparison) are implemented here over `List Char`
so that every definition evaluates by kernel reduction on concrete inputs.
-/

/-- Result of one attempt of an operation run under a retry wrapper:
the Python callable either raises a network error (`httpx.RequestError`),
raises some other exception, or returns a value, where `ret none` is a falsy
return (`None`) and `ret (some v)` a truthy one. -/
inductive AttemptResult (α : Type) where
  | netErr : AttemptResult α
  | exnErr : AttemptResult α
  | ret : Option α → AttemptResult α
deriving DecidableEq

/-- Observable outcome of a retry wrapper call: the value returned (if any),
whether the final exception was re-raised to the caller, how many times the
wrapped operation was invoked, and how many delay sleeps happened. -/
structure RetryOutcome (α : Type) where
  result : Option α
  reraised : Bool
  attempts : Nat
  sleeps : Nat
deriving DecidableEq

/-- Observable outcome of `download_update`: the content of the returned
temporary file (`none` when the function returned `None`), the total number
of artifact body bytes ever written into the temporary file, and whether the
temporary file still exists on disk after the call returns. -/
structure DlOutput where
  result : Option (List Nat)
  bytesWritten : Nat
  tempExists : Bool
deriving DecidableEq

/-- Configuration fields consulted by the downloader. -/
structure Config where
  maxDownloadSize : Nat
deriving DecidableEq

/-- The update descriptor dictionary, as far as the downloader reads it:
`sha256 = none` models a feed dictionary without a `"sha256"` key
(indexing it raises `KeyError`). -/
structure UpdateInfo where
  sha256 : Option String
deriving DecidableEq

/-- A streamed HTTP response: `ok` is the `raise_for_status` outcome,
`contentLength` the declared `content-length` header (`0` when the header is
missing, as `int(res.headers.get("content-length", 0))` yields), and
`chunks` the body chunks produced by `iter_bytes(chunk_size=8192)`. -/
structure HttpStream where
  ok : Bool
  contentLength : Nat
  chunks : List (List Nat)
deriving DecidableEq

/-- A directory entry of the backup root: its name and its `st_mtime`. -/
structure BackupEntry where
  name : String
  mtime : Nat
deriving DecidableEq

/-- What the in-process part of `apply_update` observably does: whether a
backup of the installation tree was attempted, and whether the detached
install script was written and launched.  (Neither variant modifies any
installed file in-process; only the detached script does.) -/
structure ApplyTrace where
  backupAttempted : Bool
  scriptLaunched : Bool
deriving DecidableEq

/-- Actions performed by the check pipeline around `check_update`. -/
structure RunTrace where
  downloaded : Bool
  backupAttempted : Bool
  pendingInstall : Bool
deriving DecidableEq

/-- Splitting a character list on a separator character, with Python
`str.split(sep)` semantics: `"" ↦ [""]`, separators at the ends produce
empty fields. -/
def splitCh (sep : Char) : List Char → List (List Char)
  | [] => [[]]
  | c :: cs =>
      if c = sep then [] :: splitCh sep cs
      else
        match splitCh sep cs with
        | [] => [[c]]
        | g :: gs => (c :: g) :: gs

/-- Whether the first character list is a prefix of the second. -/
def isPrefixL : List Char → List Char → Bool
  | [], _ => true
  | _ :: _, [] => false
  | a :: as, b :: bs => a = b && isPrefixL as bs

/-- Whether `pat` occurs as a contiguous substring (Python `pat in s`). -/
def containsSubL (pat : List Char) : List Char → Bool
  | [] => isPrefixL pat []
  | c :: cs => isPrefixL pat (c :: cs) || containsSubL pat cs

/-- Python `pat in s` for strings. -/
def containsSub (pat s : String) : Bool := containsSubL pat.data s.data

/-- Python `s.startswith(pre)`. -/
def strStarts (pre s : String) : Bool := isPrefixL pre.data s.data

/-- Lexicographic comparison of character lists (Python string `<=`). -/
def leL : List Char → List Char → Bool
  | [], _ => true
  | _ :: _, [] => false
  | a :: as, b :: bs => if a = b then leL as bs else decide (a < b)

/-- Python string `<=`. -/
def strLe (a b : String) : Bool := leL a.data b.data

/-- Python `str.lower()` (ASCII). -/
def lowerStr (s : String) : String := String.mk (s.data.map Char.toLower)

/-- Python `str.upper()` (ASCII). -/
def upperStr (s : String) : String := String.mk (s.data.map Char.toUpper)

/-- Python `int(s)` for a nonempty all-digit string, `none` otherwise. -/
def parseNat (cs : List Char) : Option Nat :=
  if cs ≠ [] ∧ cs.all Char.isDigit then
    some (cs.foldl (fun n c => n * 10 + (c.toNat - 48)) 0)
  else none

/-- Stable insertion of `a` into `l`: `a` goes in front of the first
element `x` with `le a x`; with a reflexive-total `le` and insertion from
the right this reproduces Python's stable `sorted`. -/
def insertLe (le : α → α → Bool) (a : α) : List α → List α
  | [] => [a]
  | x :: xs => if le a x then a :: x :: xs else x :: insertLe le a xs

/-- Stable insertion sort with respect to `le` (Python `sorted`). -/
def insortLe (le : α → α → Bool) (l : List α) : List α :=
  l.foldr (insertLe le) []

namespace Updata

/-- `pathlib.PurePath(s).name` for `'/'`-separated zip entry names: the last
nonempty path component (empty when there is none). -/
def pyNameL (s : String) : List Char :=
  ((splitCh '/' s.data).filter (fun c => c ≠ [])).getLastD []

/-- The indices at which `'.'` occurs in a character list. -/
def dotIdxs (cs : List Char) : List Nat :=
  (List.range cs.length).filter (fun i => cs.getD i ' ' = '.')

/-- `pathlib.PurePath(s).suffix`: the part of the name from its last dot,
provided that dot is neither the first nor the last character of the name. -/
def pySuffix (s : String) : String :=
  match (dotIdxs (pyNameL s)).getLast? with
  | none => ""
  | some i =>
      if 0 < i ∧ i + 1 < (pyNameL s).length then String.mk ((pyNameL s).drop i)
      else ""

/-- The executable/script denylist of `verify_zip_contents`
(src/updata.py:279). -/
def dangerous_extensions : List String :=
  [".exe", ".dll", ".bat", ".cmd", ".sh", ".vbs", ".js"]

/-- Whether one zip entry name trips `verify_zip_contents`: a denylisted
(lower-cased pathlib) suffix, the substring `"../"`, or a leading `"/"`
(src/updata.py:280-287). -/
def entryBad (f : String) : Bool :=
  dangerous_extensions.contains (lowerStr (pySuffix f))
    || containsSub "../" f || strStarts "/" f

/-- `verify_zip_contents` (src/updata.py:274-291) applied to the archive's
entry list: the loop returns `False` on the first offending entry and `True`
only when no entry offends. -/
def verify_zip_contents (names : List String) : Bool :=
  names.all (fun f => !(entryBad f))

/-- `download_update` of src/updata.py:348-406.  The temporary file is
created, then `raise_for_status` and the declared content-length check run
inside the `with client.stream(...)` block (lines 356-370).  That block is
exited at line 371, which closes the streamed response; the body loop at
line 376 then calls `res.iter_bytes` on the closed, unconsumed response,
which raises `httpx.StreamClosed` at its first iteration.  The blanket
handler (lines 402-406) deletes the temporary file and returns `None`.
Hence beyond the status and header checks every call fails with no byte
written: the running-count, digest, `zipfile.is_zipfile` and
`verify_zip_contents` stages of lines 372-401 are unreachable dead code
(and even on an open response the `hasher.update(chunk)` /
`f.write(chunk)` statements at lines 380-381 sit outside the chunk loop,
so they would cover only the final chunk).  The parameters of the dead
stages are kept so that properties can quantify over them. -/
def download_update (_h : List Nat → String)
    (_zipNames : List Nat → Option (List String))
    (cfg : Config) (_info : UpdateInfo) (st : HttpStream) : DlOutput :=
  if !st.ok then ⟨none, 0, false⟩
  else if cfg.maxDownloadSize < st.contentLength then ⟨none, 0, false⟩
  else ⟨none, 0, false⟩

/-- Encoding of a relative path fed to the tree hasher
(`hasher.update(rel_path.encode())`). -/
def encodeStr (s : String) : List Nat := s.data.map Char.toNat

/-- `PurePath(s).parts` for a relative `'/'`-separated path. -/
def pathParts (s : String) : List String :=
  ((splitCh '/' s.data).filter (fun c => c ≠ [])).map String.mk

/-- `any(p in file.parts for p in exclude_dirs)`. -/
def isExcluded (excludeDirs : List String) (path : String) : Bool :=
  excludeDirs.any (fun p => (pathParts path).contains p)

/-- `sorted(path.rglob('*'))`: the files of a tree sorted by path. -/
def sortByPath (files : List (String × List Nat)) : List (String × List Nat) :=
  insortLe (fun a b => strLe a.1 b.1) files

/-- `calculate_dir_hash` (src/updata.py:215-235): over the files of the
tree sorted by path, skipping any file one of whose path components is an
excluded name, the digest absorbs the encoded relative path followed by the
file bytes.  A tree is given as a list of (relative path, bytes) pairs. -/
def calculate_dir_hash (h : List Nat → String) (excludeDirs : List String)
    (files : List (String × List Nat)) : String :=
  h (((sortByPath files).filter
        (fun f => !(isExcluded excludeDirs f.1))).foldl
      (fun acc f => acc ++ encodeStr f.1 ++ f.2) [])

/-- The default exclusion list of `calculate_dir_hash`. -/
def defaultExcludes : List String := [".git", "__pycache__"]

/-- Outcome of `backup_current_version`: the returned backup path (if any)
and whether the backup directory still exists afterwards. -/
structure BackupOutput where
  handle : Option String
  dirExists : Bool
deriving DecidableEq

/-- `backup_current_version` (src/updata.py:237-272).  `src` is the source
tree; `copied` is the tree found in the backup directory when it is
re-hashed after the copy (file I/O may have corrupted it, which is exactly
what the verification gate exists to catch).  The source hash excludes
`.git`, `__pycache__` and the backup directory; the backup re-hash uses the
default exclusions.  On `not original_hash or not backup_hash or
backup_hash != original_hash` a `ValueError` is raised, the handler removes
the half-made backup directory and returns `None`. -/
def backup_current_version (h : List Nat → String) (backupDirName : String)
    (src copied : List (String × List Nat)) : BackupOutput :=
  let originalHash := calculate_dir_hash h (defaultExcludes ++ [backupDirName]) src
  let backupHash := calculate_dir_hash h defaultExcludes copied
  if originalHash = "" ∨ backupHash = "" ∨ backupHash ≠ originalHash then
    ⟨none, false⟩
  else ⟨some backupDirName, true⟩

/-- Whether a directory entry counts as a backup
(`d.name.startswith("backup_")`). -/
def isBackupDir (b : BackupEntry) : Bool := strStarts "backup_" b.name

/-- `sorted(..., key=mtime, reverse=True)`: stable descending sort. -/
def sortByMtimeDesc (bs : List BackupEntry) : List BackupEntry :=
  insortLe (fun a b => decide (b.mtime ≤ a.mtime)) bs

/-- `clean_old_backups` (src/updata.py:180-213): the `backup_`-named
entries are sorted by mtime descending; those beyond `MAX_BACKUP_COUNT` are
removed, and of the retained ones those older than the hard-coded 86400
seconds (24 hours) are removed as well.  The function returns the directory
entries that survive (entries not named `backup_*` are never touched). -/
def clean_old_backups (maxBackupCount nowTime : Nat)
    (dirs : List BackupEntry) : List BackupEntry :=
  dirs.filter (fun d => !(isBackupDir d)) ++
    ((sortByMtimeDesc (dirs.filter isBackupDir)).take maxBackupCount).filter
      (fun b => !(decide (86400 < nowTime - b.mtime)))

/-- Modelled from the spec: pruning as §4.3/§8 of the specification
describes it, with a *configured* maximum backup age `MAX_BACKUP_AGE`
(a key the source never defines or reads) in place of the hard-coded
24-hour constant of `clean_old_backups`. -/
def cleanPerSpec (maxBackupAge maxBackupCount nowTime : Nat)
    (dirs : List BackupEntry) : List BackupEntry :=
  dirs.filter (fun d => !(isBackupDir d)) ++
    ((sortByMtimeDesc (dirs.filter isBackupDir)).take maxBackupCount).filter
      (fun b => !(decide (maxBackupAge < nowTime - b.mtime)))

/-- `parseNat` applied to every dot-separated segment, failing when any
segment fails. -/
def parseSegs : List (List Char) → Option (List Nat)
  | [] => some []
  | c :: cs =>
      match parseNat c, parseSegs cs with
      | some n, some ns => some (n :: ns)
      | _, _ => none

/-- A concrete sample version parser for plain dotted numerals, e.g.
`"1.2.10" ↦ [1, 2, 10]`.  It covers only the `major.minor.patch` core of
the grammar `packaging.version.parse` accepts (no pre/post/dev releases,
epochs or `v` prefixes) and is therefore used solely to instantiate the
abstract `parse` parameter of `check_update` in concrete witnesses, never
as a model of the library itself. -/
def parseVer (s : String) : Option (List Nat) :=
  parseSegs (splitCh '.' s.data)

/-- A concrete sample comparison on dotted-numeral releases, matching
`packaging.version` on that fragment: componentwise numeric comparison
with missing trailing segments read as zero (`1.0 == 1.0.0`,
`1.2 < 1.10`).  Used solely to instantiate the abstract `cmp` parameter
of `check_update` in concrete witnesses. -/
def cmpVer : List Nat → List Nat → Ordering
  | [], bs => if bs.all (fun b => b == 0) then .eq else .lt
  | a :: as, [] => if a = 0 then cmpVer as [] else .gt
  | a :: as, b :: bs =>
      if a < b then .lt else if b < a then .gt else cmpVer as bs

/-- `is_valid_version` (src/updata.py:93-100): whether
`packaging.version.parse` accepts the string.  The library parser is an
abstract parameter `parse` (returning `none` exactly when the library
raises `InvalidVersion`), in the same way `hashlib` and `zipfile` are
abstract parameters of the downloader: its full grammar (pre-releases such
as `2.0.0rc1`, `v` prefixes, epochs, post/dev releases) is the library's,
not re-implemented here. -/
def is_valid_version (parse : String → Option V) (s : String) : Bool :=
  (parse s).isSome

/-- The parsed remote version descriptor: the `version` field and the
optional `sha256` field the downloader later reads. -/
structure Feed where
  version : String
  sha256 : Option String
deriving DecidableEq

/-- `check_update` (src/updata.py:312-346).  The `packaging.version`
library enters as the abstract pair `parse` / `cmp` (`cmp r c = .gt`
models `Version.__gt__`).  `resp = none` models a network or body-parse
failure (every such exception path returns `None`); otherwise the
`version` field is validated, parsed and compared with the configured
current version, and the descriptor is returned only when remote > current.
A current version that fails to parse raises inside the `try` and also
yields `None`. -/
def check_update (parse : String → Option V) (cmp : V → V → Ordering)
    (resp : Option Feed) (currentVersion : String) : Option Feed :=
  match resp with
  | none => none
  | some data =>
      if !(is_valid_version parse data.version) then none
      else
        match parse data.version, parse currentVersion with
        | some r, some c => if cmp r c = .gt then some data else none
        | _, _ => none

/-- The check pipeline of src/updata.py:506-515: `download_update` runs only
when `check_update` returned a descriptor, and no backup is attempted during
a check (a backup happens only inside `apply_update`, at process exit). -/
def run_check (parse : String → Option V) (cmp : V → V → Ordering)
    (resp : Option Feed) (currentVersion : String)
    (dl : Feed → Option String) : RunTrace :=
  match check_update parse cmp resp currentVersion with
  | none => ⟨false, false, false⟩
  | some d =>
      match dl d with
      | none => ⟨true, false, false⟩
      | some _ => ⟨true, false, true⟩

/-- The loop body of `retry_operation` (src/updata.py:300-309), recursing on
the number of loop iterations left: any exception is caught, the last
iteration re-raises, earlier ones sleep and retry; a returned value (truthy
or falsy alike) is passed straight through. -/
def retryGo (op : Nat → AttemptResult α) (i att slp : Nat) :
    Nat → RetryOutcome α
  | 0 => ⟨none, false, att, slp⟩
  | remaining + 1 =>
      match op i with
      | .ret v => ⟨v, false, att + 1, slp⟩
      | _ =>
          if remaining = 0 then ⟨none, true, att + 1, slp⟩
          else retryGo op (i + 1) (att + 1) (slp + 1) remaining

/-- `retry_operation` (src/updata.py:293-310) applied to an operation whose
`i`-th invocation behaves as `op i`. -/
def retry_operation (op : Nat → AttemptResult α) (maxRetries : Nat) :
    RetryOutcome α :=
  retryGo op 0 0 0 maxRetries

/-- `apply_update` (src/updata.py:408-423): `backup_current_version` runs
first; when it returns `None` the function logs and returns before the
install script is written or launched; otherwise the script is written and
started as a detached process. -/
def apply_update (backupOutcome : BackupOutput) : ApplyTrace :=
  match backupOutcome.handle with
  | none => ⟨true, false⟩
  | some _ => ⟨true, true⟩

end Updata

namespace AutoUpdata

/-- `download_update` of src/auto_updata/auto_updata.py:300-339: after
`raise_for_status` and the declared content-length check, every chunk is
written to the temporary file inside the loop; there is no running byte
count, no digest computation and no content-safety screen — only
`zipfile.is_zipfile` gates success.  The `except` handler removes the
temporary file and returns `None`. -/
def download_update (zipNames : List Nat → Option (List String))
    (cfg : Config) (st : HttpStream) : DlOutput :=
  if !st.ok then ⟨none, 0, false⟩
  else if cfg.maxDownloadSize < st.contentLength then ⟨none, 0, false⟩
  else if (zipNames st.chunks.flatten).isNone then
    ⟨none, st.chunks.flatten.length, false⟩
  else ⟨some st.chunks.flatten, st.chunks.flatten.length, true⟩

/-- The loop body of `retry_operation`
(src/auto_updata/auto_updata.py:241-259): a truthy return is passed
through, a falsy return ends the call with `None` ("expected failure, no
retry"), `httpx.RequestError` retries (sleeping unless this was the last
iteration), and any other exception ends the call with `None`. -/
def retryGo (op : Nat → AttemptResult α) (i att slp : Nat) :
    Nat → RetryOutcome α
  | 0 => ⟨none, false, att, slp⟩
  | remaining + 1 =>
      match op i with
      | .ret (some v) => ⟨some v, false, att + 1, slp⟩
      | .ret none => ⟨none, false, att + 1, slp⟩
      | .exnErr => ⟨none, false, att + 1, slp⟩
      | .netErr =>
          if remaining = 0 then ⟨none, false, att + 1, slp⟩
          else retryGo op (i + 1) (att + 1) (slp + 1) remaining

/-- `retry_operation` (src/auto_updata/auto_updata.py:236-260). -/
def retry_operation (op : Nat → AttemptResult α) (maxRetries : Nat) :
    RetryOutcome α :=
  retryGo op 0 0 0 maxRetries

/-- `apply_update` (src/auto_updata/auto_updata.py:364-430): when the
artifact path no longer exists a `FileNotFoundError` aborts everything;
otherwise the install script is written, the version persisted and the
script launched.  No backup of any kind is taken in this variant. -/
def apply_update (zipExists : Bool) : ApplyTrace :=
  if zipExists then ⟨false, true⟩ else ⟨false, false⟩

end AutoUpdata

/-!
## Theorems

Each claim `Cn` of the specification audit has exactly one main theorem
below, together with its counterexample or witness where required.
-/

/-- Helper: in src/updata.py's `download_update` the temporary file survives
the call exactly when the call returns it. -/
theorem updata_download_tempExists (h : List Nat → String)
    (zf : List Nat → Option (List String)) (cfg : Config)
    (info : UpdateInfo) (st : HttpStream) :
    (Updata.download_update h zf cfg info st).tempExists
      = (Updata.download_update h zf cfg info st).result.isSome := by
  unfold Updata.download_update
  split
  · rfl
  split
  · rfl
  rfl

/-- Helper: the same for src/auto_updata/auto_updata.py's
`download_update`. -/
theorem autoupdata_download_tempExists (zf : List Nat → Option (List String))
    (cfg : Config) (st : HttpStream) :
    (AutoUpdata.download_update zf cfg st).tempExists
      = (AutoUpdata.download_update zf cfg st).result.isSome := by
  unfold AutoUpdata.download_update
  split
  · rfl
  split
  · rfl
  split
  · rfl
  rfl

/-- Claim C1 (code bug): `download_update` of src/updata.py never performs
the claimed digest comparison and never returns an artifact.  The
`with client.stream(...)` block is exited at line 371, closing the
response, before the body loop at line 376 runs, so `res.iter_bytes`
raises `httpx.StreamClosed` at its first iteration; the handler deletes
the temporary file and returns `None`.  Every call — whatever the digest,
archive, size limit or body, a perfectly matching one included — yields
`⟨none, 0, false⟩`.  (Independently, the `hasher.update(chunk)` /
`f.write(chunk)` statements at lines 380-381 are indented outside the
chunk loop, so even an open response would have only its final chunk
hashed and written.)  The behavior the claim describes — compare the
computed digest case-insensitively against the expected one, fail exactly
on mismatch — is not a behavior of this code. -/
theorem c1_download_never_succeeds :
    ∀ (h : List Nat → String) (zf : List Nat → Option (List String))
      (cfg : Config) (info : UpdateInfo) (st : HttpStream),
      Updata.download_update h zf cfg info st = ⟨none, 0, false⟩ := by
  intro h zf cfg info st
  unfold Updata.download_update
  split
  · rfl
  split
  · rfl
  rfl

/-- Claim C4 (confirmed): for both variants of `download_update`, the
temporary file exists after the call exactly when the call returned the
artifact; in particular every failed download — at whatever stage it failed
(network error, oversize, missing or mismatched digest, invalid archive,
unsafe contents) — leaves no temporary file on disk. -/
theorem c4_failed_download_leaves_no_temp :
    (∀ (h : List Nat → String) (zf : List Nat → Option (List String))
        (cfg : Config) (info : UpdateInfo) (st : HttpStream),
      (Updata.download_update h zf cfg info st).tempExists
        = (Updata.download_update h zf cfg info st).result.isSome)
  ∧ (∀ (zf : List Nat → Option (List String)) (cfg : Config)
        (st : HttpStream),
      (AutoUpdata.download_update zf cfg st).tempExists
        = (AutoUpdata.download_update zf cfg st).result.isSome) :=
  ⟨updata_download_tempExists, autoupdata_download_tempExists⟩

/-- Claim C10 (confirmed): in src/updata.py, a descriptor without a
`"sha256"` key can never produce a successful download: `download_update`
deletes the temporary file and returns `None` whatever the downloaded
bytes are, even a perfectly valid and safe zip archive.  (The failure here
is the closed-stream one of C1, which precedes even the `KeyError` that
`update_info["sha256"]` would raise at line 385 — both land in the same
delete-and-return-`None` handler.) -/
theorem c10_missing_digest_always_fails :
    ∀ (h : List Nat → String) (zf : List Nat → Option (List String))
      (cfg : Config) (st : HttpStream),
      (Updata.download_update h zf cfg ⟨none⟩ st).result = none
      ∧ (Updata.download_update h zf cfg ⟨none⟩ st).tempExists = false := by
  intro h zf cfg st
  unfold Updata.download_update
  split
  · exact ⟨rfl, rfl⟩
  split
  · exact ⟨rfl, rfl⟩
  exact ⟨rfl, rfl⟩

/-- Claim C2, counterexample: in src/auto_updata/auto_updata.py there is no
running byte count at all, so with a missing (`0`) content-length header a
20-byte body is written in full to disk — and even returned as a successful
download — under a 10-byte `MAX_DOWNLOAD_SIZE`: the download neither aborts
mid-stream nor keeps the bytes on disk within the limit. -/
theorem c2_counterexample :
    AutoUpdata.download_update (fun _ => some []) ⟨10⟩
        ⟨true, 0, [List.replicate 20 0]⟩
      = ⟨some (List.replicate 20 0), 20, true⟩
    ∧ 10 < 20 := by
  exact ⟨by decide, by decide⟩

/-- Claim C2 (corrected): in src/updata.py a declared content-length above
`MAX_DOWNLOAD_SIZE` aborts before any body byte is written, and a body
whose total size exceeds the limit likewise produces a failed download
with zero artifact bytes on disk — indeed no download of this variant
ever writes a byte, since the response is closed before the body loop
(see C1), so a failed-oversize download can never exceed the limit on
disk.  In src/auto_updata/auto_updata.py only the declared header is
checked: when it passes, every streamed byte is written, however many
there are. -/
theorem c2_oversize_abort :
    (∀ (h : List Nat → String) (zf : List Nat → Option (List String))
        (cfg : Config) (info : UpdateInfo) (st : HttpStream),
      cfg.maxDownloadSize < st.contentLength →
        Updata.download_update h zf cfg info st = ⟨none, 0, false⟩)
  ∧ (∀ (h : List Nat → String) (zf : List Nat → Option (List String))
        (cfg : Config) (info : UpdateInfo) (st : HttpStream),
      cfg.maxDownloadSize < (st.chunks.map List.length).sum →
        Updata.download_update h zf cfg info st = ⟨none, 0, false⟩)
  ∧ (∀ (zf : List Nat → Option (List String)) (cfg : Config)
        (st : HttpStream),
      st.ok = true → st.contentLength ≤ cfg.maxDownloadSize →
        (AutoUpdata.download_update zf cfg st).bytesWritten
          = st.chunks.flatten.length) := by
  refine ⟨?_, ?_, ?_⟩
  · intro h zf cfg info st hbig
    simp [Updata.download_update]
  · intro h zf cfg info st hbig
    simp [Updata.download_update]
  · intro zf cfg st hok hle
    unfold AutoUpdata.download_update
    rw [hok]
    simp only [Bool.not_true, Bool.false_eq_true, if_false,
      if_neg (Nat.not_lt.mpr hle)]
    split
    · rfl
    · rfl

/-- Witness for C2's corrected theorem at concrete inputs: an oversize
header, an oversize body under an understated header, and the
auto_updata full write. -/
theorem c2_oversize_abort_witness :
    Updata.download_update (fun _ => "") (fun _ => none) ⟨1⟩ ⟨none⟩
        ⟨true, 2, []⟩ = ⟨none, 0, false⟩
  ∧ Updata.download_update (fun _ => "") (fun _ => none) ⟨1⟩ ⟨none⟩
        ⟨true, 0, [[0, 0]]⟩ = ⟨none, 0, false⟩
  ∧ (AutoUpdata.download_update (fun _ => none) ⟨10⟩
        ⟨true, 0, [[1, 2]]⟩).bytesWritten
      = ([[1, 2]] : List (List Nat)).flatten.length :=
  ⟨c2_oversize_abort.1 _ _ _ _ _ (by decide),
   c2_oversize_abort.2.1 _ _ _ _ _ (by decide),
   c2_oversize_abort.2.2 _ _ _ (by decide) (by decide)⟩

/-- Claim C3, counterexample: an archive entry that *is* a parent-directory
traversal segment (a bare `".."`), or expresses traversal with backslash
separators (`"..\\x"`, the separator of the Windows platform this updater
targets), passes the content-safety screen: `verify_zip_contents` only
looks for the three-character substring `"../"` and a leading `"/"`. -/
theorem c3_counterexample :
    Updata.verify_zip_contents [".."] = true
  ∧ Updata.verify_zip_contents ["..\\x"] = true := by
  exact ⟨by decide, by decide⟩

/-- Claim C3 (corrected): the screen rejects the artifact in full exactly
when some entry offends the checks the code actually performs — a
denylisted (case-insensitively lower-cased pathlib) extension, the
substring `"../"`, or a leading `"/"` — and a rejected archive never
yields an artifact: `download_update` returns `None` and deletes the
temporary file (in this variant no download succeeds at all — see C1).
Traversal written as a bare `".."` segment or with backslashes is not
among the rejected forms. -/
theorem c3_screen_rejects_in_full :
    (∀ (names : List String) (f : String), f ∈ names →
      Updata.entryBad f = true → Updata.verify_zip_contents names = false)
  ∧ (∀ (h : List Nat → String) (zf : List Nat → Option (List String))
        (cfg : Config) (info : UpdateInfo) (st : HttpStream)
        (lc : List Nat) (names : List String),
      st.chunks.getLast? = some lc → zf lc = some names →
      Updata.verify_zip_contents names = false →
        (Updata.download_update h zf cfg info st).result = none
        ∧ (Updata.download_update h zf cfg info st).tempExists = false) := by
  constructor
  · intro names f hmem hbad
    unfold Updata.verify_zip_contents
    rw [List.all_eq_false]
    exact ⟨f, hmem, by simp [hbad]⟩
  · intro h zf cfg info st lc names hlast hzf hbadzip
    unfold Updata.download_update
    split
    · exact ⟨rfl, rfl⟩
    split
    · exact ⟨rfl, rfl⟩
    exact ⟨rfl, rfl⟩

/-- Witness for C3's corrected theorem: a denylisted `.ExE` entry makes the
screen reject, and a download whose archive lists it fails in full. -/
theorem c3_screen_rejects_in_full_witness :
    Updata.verify_zip_contents ["ok.txt", "b.ExE"] = false
  ∧ ((Updata.download_update (fun _ => "aa") (fun _ => some ["b.ExE"])
        ⟨100⟩ ⟨some "AA"⟩ ⟨true, 0, [[1]]⟩).result = none
      ∧ (Updata.download_update (fun _ => "aa") (fun _ => some ["b.ExE"])
          ⟨100⟩ ⟨some "AA"⟩ ⟨true, 0, [[1]]⟩).tempExists = false) :=
  ⟨c3_screen_rejects_in_full.1 ["ok.txt", "b.ExE"] "b.ExE" (by decide)
      (by decide),
   c3_screen_rejects_in_full.2 _ _ _ _ ⟨true, 0, [[1]]⟩ [1] ["b.ExE"]
      (by decide) (by decide) (by decide)⟩

/-- Claim C5 (confirmed): a snapshot that returns success has passed the
digest gate — the digest recomputed over the backup copy equals the digest
computed over the source tree — and whenever the two digests disagree the
snapshot fails and the half-made backup directory is deleted. -/
theorem c5_backup_roundtrip :
    ∀ (h : List Nat → String) (name : String)
      (src copied : List (String × List Nat)),
      ((Updata.backup_current_version h name src copied).handle.isSome = true →
        Updata.calculate_dir_hash h Updata.defaultExcludes copied
          = Updata.calculate_dir_hash h (Updata.defaultExcludes ++ [name]) src)
    ∧ (Updata.calculate_dir_hash h Updata.defaultExcludes copied
          ≠ Updata.calculate_dir_hash h (Updata.defaultExcludes ++ [name]) src →
        Updata.backup_current_version h name src copied
          = ⟨none, false⟩) := by
  intro h name src copied
  unfold Updata.backup_current_version
  by_cases hfail : Updata.calculate_dir_hash h
        (Updata.defaultExcludes ++ [name]) src = ""
      ∨ Updata.calculate_dir_hash h Updata.defaultExcludes copied = ""
      ∨ Updata.calculate_dir_hash h Updata.defaultExcludes copied
          ≠ Updata.calculate_dir_hash h (Updata.defaultExcludes ++ [name]) src
  · rw [if_pos hfail]
    exact ⟨fun hsome => by simp at hsome, fun _ => rfl⟩
  · rw [if_neg hfail]
    push_neg at hfail
    exact ⟨fun _ => hfail.2.2, fun hne => absurd hfail.2.2 hne⟩

/-- Witness for C5: a successful empty-tree snapshot with matching digests,
and a corrupted copy (source file lost in the copy) that fails with the
backup directory removed. -/
theorem c5_backup_roundtrip_witness :
    Updata.calculate_dir_hash (fun _ => "x") Updata.defaultExcludes []
      = Updata.calculate_dir_hash (fun _ => "x")
          (Updata.defaultExcludes ++ ["backup_b"]) []
  ∧ Updata.backup_current_version (fun bs => toString bs.length) "backup_b"
      [("a", [1])] [] = ⟨none, false⟩ :=
  ⟨(c5_backup_roundtrip (fun _ => "x") "backup_b" [] []).1 (by decide),
   (c5_backup_roundtrip (fun bs => toString bs.length) "backup_b"
      [("a", [1])] []).2 (by decide)⟩

/-- Claim C9, counterexample: `apply_update` of
src/auto_updata/auto_updata.py launches the install routine for an existing
artifact without ever calling any backup — there is no Backup Manager in
this variant at all, so "snapshot first, abort on failure" does not hold
for every apply invocation of the repository. -/
theorem c9_counterexample :
    AutoUpdata.apply_update true
      = { backupAttempted := false, scriptLaunched := true } := by
  decide

/-- Claim C9 (corrected): in src/updata.py, `apply_update` runs
`backup_current_version` first and, when the snapshot fails, returns
without writing or launching the install script — the installation tree is
left untouched and the update is skipped; in
src/auto_updata/auto_updata.py, `apply_update` attempts no backup at all
before launching the install routine. -/
theorem c9_backup_gates_apply :
    (∀ (h : List Nat → String) (name : String)
        (src copied : List (String × List Nat)),
      (Updata.backup_current_version h name src copied).handle = none →
        Updata.apply_update (Updata.backup_current_version h name src copied)
          = { backupAttempted := true, scriptLaunched := false })
  ∧ (∀ zipExists : Bool,
      (AutoUpdata.apply_update zipExists).backupAttempted = false) := by
  constructor
  · intro h name src copied hnone
    unfold Updata.apply_update
    rw [hnone]
  · intro zipExists
    cases zipExists <;> rfl

/-- Witness for C9's corrected theorem: a failing snapshot (corrupted copy)
makes `apply_update` stop before launching the script. -/
theorem c9_backup_gates_apply_witness :
    Updata.apply_update (Updata.backup_current_version
        (fun bs => toString bs.length) "backup_b" [("a", [1])] [])
      = { backupAttempted := true, scriptLaunched := false } :=
  c9_backup_gates_apply.1 (fun bs => toString bs.length) "backup_b"
    [("a", [1])] [] (by decide)

/-- Claim C7 (confirmed): for every behavior of the `packaging.version`
library — an arbitrary parser `parse` and comparison `cmp`, covering its
whole grammar (pre-releases, `v` prefixes, epochs, post/dev releases)
exactly as the library implements it — and a current version the library
accepts, `check_update` returns the fetched descriptor exactly when the
remote version parses and compares strictly greater; when it is equal or
smaller the check returns `None` — the normal "no update" outcome — and
the pipeline performs no download and no backup. -/
theorem c7_check_returns_iff_newer :
    ∀ (V : Type) (parse : String → Option V) (cmp : V → V → Ordering)
      (data : Updata.Feed) (cur : String) (cv : V)
      (dl : Updata.Feed → Option String),
      parse cur = some cv →
      ((Updata.check_update parse cmp (some data) cur = some data ↔
          ∃ rv, parse data.version = some rv ∧ cmp rv cv = .gt)
      ∧ (∀ rv, parse data.version = some rv →
          cmp rv cv ≠ .gt →
            Updata.check_update parse cmp (some data) cur = none
            ∧ Updata.run_check parse cmp (some data) cur dl
                = ⟨false, false, false⟩)) := by
  intro V parse cmp data cur cv dl hcur
  cases hpv : parse data.version with
  | none =>
      have hcheck : Updata.check_update parse cmp (some data) cur = none := by
        simp [Updata.check_update, Updata.is_valid_version, hpv]
      constructor
      · rw [hcheck]
        constructor
        · intro hsome; cases hsome
        · rintro ⟨rv, hrv, _⟩
          cases hrv
      · intro rv hrv
        cases hrv
  | some r =>
      by_cases hgt : cmp r cv = .gt
      · have hcheck : Updata.check_update parse cmp (some data) cur
            = some data := by
          simp [Updata.check_update, Updata.is_valid_version, hpv, hcur, hgt]
        constructor
        · rw [hcheck]
          exact ⟨fun _ => ⟨r, rfl, hgt⟩, fun _ => rfl⟩
        · intro rv hrv hngt
          injection hrv with hh
          subst hh
          exact absurd hgt hngt
      · have hcheck : Updata.check_update parse cmp (some data) cur
            = none := by
          simp [Updata.check_update, Updata.is_valid_version, hpv, hcur, hgt]
        constructor
        · rw [hcheck]
          constructor
          · intro hsome; cases hsome
          · rintro ⟨rv, hrv, hrvgt⟩
            injection hrv with hh
            subst hh
            exact absurd hrvgt hgt
        · intro rv hrv hngt
          refine ⟨hcheck, ?_⟩
          unfold Updata.run_check
          rw [hcheck]

/-- Witness for C7, instantiating the abstract library at the concrete
dotted-numeral parser and comparison: version 2.0.0 over 1.0.0 is
returned; version 1.0.0 over 1.0.0 yields "no update" with no download
and no backup performed. -/
theorem c7_check_returns_iff_newer_witness :
    Updata.check_update Updata.parseVer Updata.cmpVer
        (some ⟨"2.0.0", none⟩) "1.0.0"
      = some ⟨"2.0.0", none⟩
  ∧ (Updata.check_update Updata.parseVer Updata.cmpVer
        (some ⟨"1.0.0", none⟩) "1.0.0" = none
      ∧ Updata.run_check Updata.parseVer Updata.cmpVer
          (some ⟨"1.0.0", none⟩) "1.0.0"
          (fun _ => some "tmp.zip") = ⟨false, false, false⟩) :=
  ⟨((c7_check_returns_iff_newer (List Nat) Updata.parseVer Updata.cmpVer
      ⟨"2.0.0", none⟩ "1.0.0" [1, 0, 0]
      (fun _ => some "tmp.zip") (by decide)).1).mpr
        ⟨[2, 0, 0], by decide, by decide⟩,
   (c7_check_returns_iff_newer (List Nat) Updata.parseVer Updata.cmpVer
      ⟨"1.0.0", none⟩ "1.0.0" [1, 0, 0]
      (fun _ => some "tmp.zip") (by decide)).2 [1, 0, 0]
        (by decide) (by decide)⟩

/-- Helper: the auto_updata retry loop under an operation that always
raises a network error runs all remaining iterations, sleeping between
consecutive attempts but not after the last one. -/
theorem autoupdata_retryGo_allNet {α : Type} (op : Nat → AttemptResult α)
    (hop : ∀ j, op j = AttemptResult.netErr) :
    ∀ (remaining i att slp : Nat),
      AutoUpdata.retryGo op i att slp remaining
        = ⟨none, false, att + remaining, slp + (remaining - 1)⟩ := by
  intro remaining
  induction remaining with
  | zero =>
      intro i att slp
      simp [AutoUpdata.retryGo]
  | succ r ih =>
      intro i att slp
      unfold AutoUpdata.retryGo
      rw [hop i]
      cases r with
      | zero => simp
      | succ r2 =>
          simp only [Nat.succ_ne_zero, if_false, ih (i + 1) (att + 1) (slp + 1)]
          refine congrArg₂ _ ?_ ?_ <;> omega

/-- Claim C8, counterexample: the retry wrapper of src/updata.py retries on
*every* exception, not only on network request errors: an operation that
always raises a non-network exception (`ValueError`, say) is attempted 3
times with 2 delay sleeps before the exception is re-raised, where the
claim requires a single, never-retried attempt. -/
theorem c8_counterexample :
    Updata.retry_operation
        (fun _ => (AttemptResult.exnErr : AttemptResult Nat)) 3
      = ⟨none, true, 3, 2⟩
    ∧ (3 : Nat) ≠ 1 := by
  exact ⟨by decide, by decide⟩

/-- Claim C8 (corrected): the retry wrapper of
src/auto_updata/auto_updata.py implements the claimed policy — an
operation that keeps raising network errors is attempted `MAX_RETRY` times
with a delay sleep between consecutive attempts and finally yields `None`;
a non-network exception, a truthy result and a falsy result all end the
call at the first attempt with no retry and no sleep.  The wrapper of
src/updata.py instead retries every exception kind (see the
counterexample). -/
theorem c8_retry_policy :
    ∀ (α : Type) (op : Nat → AttemptResult α) (maxRetries : Nat),
      ((∀ j, op j = AttemptResult.netErr) →
        AutoUpdata.retry_operation op maxRetries
          = ⟨none, false, maxRetries, maxRetries - 1⟩)
    ∧ (∀ v : α, 1 ≤ maxRetries → op 0 = AttemptResult.ret (some v) →
        AutoUpdata.retry_operation op maxRetries = ⟨some v, false, 1, 0⟩)
    ∧ (1 ≤ maxRetries → op 0 = AttemptResult.ret none →
        AutoUpdata.retry_operation op maxRetries = ⟨none, false, 1, 0⟩)
    ∧ (1 ≤ maxRetries → op 0 = AttemptResult.exnErr →
        AutoUpdata.retry_operation op maxRetries = ⟨none, false, 1, 0⟩) := by
  intro α op maxRetries
  refine ⟨?_, ?_, ?_, ?_⟩
  · intro hop
    unfold AutoUpdata.retry_operation
    rw [autoupdata_retryGo_allNet op hop maxRetries 0 0 0]
    simp
  · intro v hpos hop
    obtain ⟨r, rfl⟩ : ∃ r, maxRetries = r + 1 :=
      ⟨maxRetries - 1, by omega⟩
    unfold AutoUpdata.retry_operation AutoUpdata.retryGo
    rw [hop]
  · intro hpos hop
    obtain ⟨r, rfl⟩ : ∃ r, maxRetries = r + 1 :=
      ⟨maxRetries - 1, by omega⟩
    unfold AutoUpdata.retry_operation AutoUpdata.retryGo
    rw [hop]
  · intro hpos hop
    obtain ⟨r, rfl⟩ : ∃ r, maxRetries = r + 1 :=
      ⟨maxRetries - 1, by omega⟩
    unfold AutoUpdata.retry_operation AutoUpdata.retryGo
    rw [hop]

/-- Witness for C8's corrected theorem: three all-network-error attempts
with two sleeps, and immediate non-retried completion for a truthy return,
a falsy return, and a non-network exception. -/
theorem c8_retry_policy_witness :
    AutoUpdata.retry_operation
        (fun _ => (AttemptResult.netErr : AttemptResult Nat)) 3
      = ⟨none, false, 3, 2⟩
  ∧ AutoUpdata.retry_operation
        (fun _ => AttemptResult.ret (some 5)) 3 = ⟨some 5, false, 1, 0⟩
  ∧ AutoUpdata.retry_operation
        (fun _ => (AttemptResult.ret none : AttemptResult Nat)) 3
      = ⟨none, false, 1, 0⟩
  ∧ AutoUpdata.retry_operation
        (fun _ => (AttemptResult.exnErr : AttemptResult Nat)) 3
      = ⟨none, false, 1, 0⟩ :=
  ⟨(c8_retry_policy Nat (fun _ => AttemptResult.netErr) 3).1
      (fun _ => rfl),
   (c8_retry_policy Nat (fun _ => AttemptResult.ret (some 5)) 3).2.1 5
      (by decide) rfl,
   (c8_retry_policy Nat (fun _ => AttemptResult.ret none) 3).2.2.1
      (by decide) rfl,
   (c8_retry_policy Nat (fun _ => AttemptResult.exnErr) 3).2.2.2
      (by decide) rfl⟩

/-- Helper: membership through a stable insertion. -/
theorem mem_insertLe (le : α → α → Bool) (a x : α) :
    ∀ l : List α, (x ∈ insertLe le a l ↔ x = a ∨ x ∈ l)
  | [] => by simp [insertLe]
  | y :: ys => by
      unfold insertLe
      by_cases hya : le a y = true
      · simp only [if_pos hya, List.mem_cons]
      · simp only [if_neg hya, List.mem_cons, mem_insertLe le a x ys]
        tauto

/-- Helper: membership through the insertion sort. -/
theorem mem_insortLe (le : α → α → Bool) (x : α) :
    ∀ l : List α, (x ∈ insortLe le l ↔ x ∈ l)
  | [] => Iff.rfl
  | c :: cs => by
      show x ∈ insertLe le c (insortLe le cs) ↔ _
      rw [mem_insertLe]
      simp [mem_insortLe le x cs]

/-- Helper: a stable insertion grows the length by one. -/
theorem length_insertLe (le : α → α → Bool) (a : α) :
    ∀ l : List α, (insertLe le a l).length = l.length + 1
  | [] => rfl
  | y :: ys => by
      unfold insertLe
      by_cases hya : le a y = true
      · simp [if_pos hya]
      · simp [if_neg hya, length_insertLe le a ys]

/-- Helper: the insertion sort preserves length. -/
theorem length_insortLe (le : α → α → Bool) :
    ∀ l : List α, (insortLe le l).length = l.length
  | [] => rfl
  | c :: cs => by
      show (insertLe le c (insortLe le cs)).length = _
      rw [length_insertLe, length_insortLe le cs]
      rfl

/-- Helper: inserting into a list sorted for a transitive total Boolean
order keeps it sorted. -/
theorem pairwise_insertLe (le : α → α → Bool)
    (htrans : ∀ a b c, le a b = true → le b c = true → le a c = true)
    (htot : ∀ a b, le a b = true ∨ le b a = true) (a : α) :
    ∀ l : List α,
      l.Pairwise (fun x y => le x y = true) →
      (insertLe le a l).Pairwise (fun x y => le x y = true)
  | [], _ => by simp [insertLe]
  | y :: ys, hp => by
      rw [List.pairwise_cons] at hp
      obtain ⟨hy, hys⟩ := hp
      unfold insertLe
      by_cases hya : le a y = true
      · rw [if_pos hya]
        refine List.Pairwise.cons ?_ (List.Pairwise.cons hy hys)
        intro z hz
        rcases List.mem_cons.mp hz with rfl | hz2
        · exact hya
        · exact htrans a y z hya (hy z hz2)
      · rw [if_neg hya]
        refine List.Pairwise.cons ?_
          (pairwise_insertLe le htrans htot a ys hys)
        intro z hz
        rcases (mem_insertLe le a z ys).mp hz with hza | hz2
        · rw [hza]
          rcases htot a y with h1 | h2
          · exact absurd h1 hya
          · exact h2
        · exact hy z hz2

/-- Helper: the insertion sort sorts, for a transitive total Boolean
order. -/
theorem pairwise_insortLe (le : α → α → Bool)
    (htrans : ∀ a b c, le a b = true → le b c = true → le a c = true)
    (htot : ∀ a b, le a b = true ∨ le b a = true) :
    ∀ l : List α,
      (insortLe le l).Pairwise (fun x y => le x y = true)
  | [] => List.Pairwise.nil
  | c :: cs => by
      show (insertLe le c (insortLe le cs)).Pairwise _
      exact pairwise_insertLe le htrans htot c (insortLe le cs)
        (pairwise_insortLe le htrans htot cs)

/-- Claim C6, counterexample: the 100-second maximum age a configuration
would prescribe is ignored — `clean_old_backups` keeps a 200-second-old
backup that is within the retention count, because the only age it consults
is the hard-coded 86400 seconds; the spec-mandated pruning with a
configured `MAX_BACKUP_AGE` of 100 deletes it. -/
theorem c6_counterexample :
    Updata.clean_old_backups 5 1000 [⟨"backup_a", 800⟩]
      = [⟨"backup_a", 800⟩]
  ∧ Updata.cleanPerSpec 100 5 1000 [⟨"backup_a", 800⟩] = [] := by
  exact ⟨by decide, by decide⟩

/-- Claim C6 (corrected): after a snapshot, `clean_old_backups` keeps at
most `MAX_BACKUP_COUNT` backup directories; every backup older than the
*hard-coded* 86400 seconds is deleted even when within the count; when no
backup exceeds that age, the survivors are exactly the first
`MAX_BACKUP_COUNT` entries of the mtime-descending sort — as many as there
are backups, capped at the count — and every backup dropped for being
beyond the count is no newer than every retained one.  No configured
`MAX_BACKUP_AGE` exists in the code. -/
theorem c6_prune_keeps_newest :
    ∀ (maxCount nowTime : Nat) (dirs : List BackupEntry),
      ((Updata.clean_old_backups maxCount nowTime dirs).filter
          Updata.isBackupDir).length ≤ maxCount
    ∧ (∀ b ∈ dirs, Updata.isBackupDir b = true →
        86400 < nowTime - b.mtime →
          b ∉ Updata.clean_old_backups maxCount nowTime dirs)
    ∧ ((∀ b ∈ dirs, nowTime - b.mtime ≤ 86400) →
        (Updata.clean_old_backups maxCount nowTime dirs).filter
            Updata.isBackupDir
          = (Updata.sortByMtimeDesc (dirs.filter Updata.isBackupDir)).take
              maxCount
        ∧ ((Updata.clean_old_backups maxCount nowTime dirs).filter
              Updata.isBackupDir).length
            = min maxCount (dirs.filter Updata.isBackupDir).length)
    ∧ (∀ x ∈ (Updata.sortByMtimeDesc
          (dirs.filter Updata.isBackupDir)).drop maxCount,
        ∀ y ∈ (Updata.sortByMtimeDesc
          (dirs.filter Updata.isBackupDir)).take maxCount,
          x.mtime ≤ y.mtime) := by
  intro maxCount nowTime dirs
  have hmem_s : ∀ x ∈ Updata.sortByMtimeDesc (dirs.filter Updata.isBackupDir),
      x ∈ dirs ∧ Updata.isBackupDir x = true := by
    intro x hx
    have h2 := (mem_insortLe _ x _).mp hx
    exact List.mem_filter.mp h2
  have hfilter_clean :
      (Updata.clean_old_backups maxCount nowTime dirs).filter
          Updata.isBackupDir
        = ((Updata.sortByMtimeDesc (dirs.filter Updata.isBackupDir)).take
            maxCount).filter
            (fun b => !(decide (86400 < nowTime - b.mtime))) := by
    unfold Updata.clean_old_backups
    rw [List.filter_append]
    have h1 : (dirs.filter (fun d => !(Updata.isBackupDir d))).filter
        Updata.isBackupDir = [] := by
      rw [List.filter_eq_nil_iff]
      intro a ha
      have h2 := (List.mem_filter.mp ha).2
      simp only [Bool.not_eq_true'] at h2
      simp [h2]
    have h2 : (((Updata.sortByMtimeDesc
          (dirs.filter Updata.isBackupDir)).take maxCount).filter
          (fun b => !(decide (86400 < nowTime - b.mtime)))).filter
          Updata.isBackupDir
        = ((Updata.sortByMtimeDesc (dirs.filter Updata.isBackupDir)).take
            maxCount).filter
            (fun b => !(decide (86400 < nowTime - b.mtime))) := by
      rw [List.filter_eq_self]
      intro b hb
      exact (hmem_s b (List.take_subset _ _ (List.mem_filter.mp hb).1)).2
    rw [h1, h2, List.nil_append]
  refine ⟨?_, ?_, ?_, ?_⟩
  · rw [hfilter_clean]
    calc (((Updata.sortByMtimeDesc (dirs.filter Updata.isBackupDir)).take
            maxCount).filter
            (fun b => !(decide (86400 < nowTime - b.mtime)))).length
        ≤ ((Updata.sortByMtimeDesc (dirs.filter Updata.isBackupDir)).take
            maxCount).length := List.length_filter_le _ _
      _ ≤ maxCount := List.length_take_le _ _
  · intro b hb hbak hold hmem
    unfold Updata.clean_old_backups at hmem
    rcases List.mem_append.mp hmem with h1 | h2
    · have h3 := (List.mem_filter.mp h1).2
      rw [hbak] at h3
      simp at h3
    · have h3 := (List.mem_filter.mp h2).2
      simp only [Bool.not_eq_true', decide_eq_false_iff_not] at h3
      exact h3 hold
  · intro hfresh
    have hkeptall : ((Updata.sortByMtimeDesc
          (dirs.filter Updata.isBackupDir)).take maxCount).filter
          (fun b => !(decide (86400 < nowTime - b.mtime)))
        = (Updata.sortByMtimeDesc (dirs.filter Updata.isBackupDir)).take
            maxCount := by
      rw [List.filter_eq_self]
      intro b hb
      have hbdirs := (hmem_s b (List.take_subset _ _ hb)).1
      have h4 := hfresh b hbdirs
      simp only [Bool.not_eq_true', decide_eq_false_iff_not]
      omega
    constructor
    · rw [hfilter_clean, hkeptall]
    · rw [hfilter_clean, hkeptall, List.length_take]
      unfold Updata.sortByMtimeDesc
      rw [length_insortLe]
  · intro x hx y hy
    have hsorted : ((Updata.sortByMtimeDesc
        (dirs.filter Updata.isBackupDir))).Pairwise
        (fun p q => (fun a b => decide (b.mtime ≤ a.mtime)) p q = true) := by
      unfold Updata.sortByMtimeDesc
      apply pairwise_insortLe
      · intro a b c hab hbc
        simp only [decide_eq_true_eq] at hab hbc ⊢
        omega
      · intro a b
        simp only [decide_eq_true_eq]
        omega
    have hrel := List.Sorted.rel_of_mem_take_of_mem_drop hsorted hy hx
    simpa using hrel

/-- Witness for C6's corrected theorem: three backups and a stray directory
under a retention count of 2 — the count is respected, a stale backup
within the count is dropped, fresh backups survive as the top of the
descending sort, and take/drop members are ordered. -/
theorem c6_prune_keeps_newest_witness :
    ((Updata.clean_old_backups 2 1000
        [⟨"backup_a", 100⟩, ⟨"x", 990⟩, ⟨"backup_b", 900⟩,
         ⟨"backup_c", 950⟩]).filter Updata.isBackupDir).length ≤ 2
  ∧ (⟨"backup_old", 0⟩ : BackupEntry)
      ∉ Updata.clean_old_backups 2 100000 [⟨"backup_old", 0⟩]
  ∧ (Updata.clean_old_backups 2 1000
        [⟨"backup_a", 100⟩, ⟨"x", 990⟩, ⟨"backup_b", 900⟩,
         ⟨"backup_c", 950⟩]).filter Updata.isBackupDir
      = (Updata.sortByMtimeDesc
          ([⟨"backup_a", 100⟩, ⟨"x", 990⟩, ⟨"backup_b", 900⟩,
            ⟨"backup_c", 950⟩].filter Updata.isBackupDir)).take 2
  ∧ (⟨"backup_a", 100⟩ : BackupEntry).mtime
      ≤ (⟨"backup_c", 950⟩ : BackupEntry).mtime :=
  ⟨(c6_prune_keeps_newest 2 1000 _).1,
   (c6_prune_keeps_newest 2 100000 [⟨"backup_old", 0⟩]).2.1
      ⟨"backup_old", 0⟩ (by decide) (by decide) (by decide),
   ((c6_prune_keeps_newest 2 1000 _).2.2.1 (by decide)).1,
   (c6_prune_keeps_newest 2 1000
      [⟨"backup_a", 100⟩, ⟨"x", 990⟩, ⟨"backup_b", 900⟩,
       ⟨"backup_c", 950⟩]).2.2.2 ⟨"backup_a", 100⟩ (by decide)
      ⟨"backup_c", 950⟩ (by decide)⟩
